import Mathlib

/-!
Verification of back-to-the-2000s, a user-posts aggregation endpoint.

A shallow embedding of `main.go`: the models (`user`, `userPosts`, `userInfo`,
`postSummary`), the upstream client (`typicodeClient.getUserById`,
`typicodeClient.getPostsByUserId`), the service
(`userPostService.getUserPostsByUserId`) and the controller
(`getUserPostsByUserId`).

Conventions of the embedding.

* Go `int` is `Int` (no arithmetic is performed on ids or status codes).
* Go `string` is `String`; `fmt.Sprint` of strings and one integer is plain
  concatenation with the integer in decimal (no blank is inserted next to a
  string operand).
* Go `error` is `Option ErrorValue`: `none` is `nil`, and the only observable of
  a non-nil error in this program is the text of its `Error()` method.
* A Go slice is `Slice α`, which keeps the `nil` slice apart from the empty
  non-nil slice, because `reflect.DeepEqual` distinguishes them.
* The two goroutines of the service write disjoint local variables and are
  joined by the wait group before any of them is read, so the service is the
  merge of the two fetch outcomes. The transition system `step` spells the
  statements out one by one, and `waitGroup_join` relates every interleaving
  of them to that sequential reading.
* `strconv.Atoi` is a parameter of the controller, like the other library
  functions.
* `net/http` request construction, `net/url` query encoding and
  `encoding/json` decoding are external libraries: they are the fields of
  `Libs`, over which every general theorem is universally quantified.
* The injected `httpClient` answers a request either with an error or with a
  response that carries a status code and a body, as `net/http` guarantees;
  `defer resp.Body.Close()` has no effect on the returned values.
-/

namespace BackToThe2000s

/-! ## Go runtime values -/

/-- A non-nil Go `error`; `Error` is the text returned by its `Error()` method. -/
structure ErrorValue where
  Error : String
deriving DecidableEq, Repr

/-- The Go interface type `error`: `none` is `nil`. -/
abbrev error := Option ErrorValue

/-- Go `errors.New(text)`. -/
def errors.New (text : String) : error := some ⟨text⟩

/-- A Go slice value: `nil`, or a non-nil slice holding `elems` in order. -/
inductive Slice (α : Type) where
  | nil : Slice α
  | elems : List α → Slice α
deriving DecidableEq, Repr

/-- Go `reflect.DeepEqual` on values built from integers, strings, structs and
slices of those: field-wise equality, with a `nil` slice different from an empty
non-nil slice. -/
def reflect.DeepEqual {α : Type} [DecidableEq α] (x y : α) : Bool := decide (x = y)

/-- Default formatting of a Go `int` by `fmt.Sprint`: decimal, with a leading
minus sign for negative values. -/
def fmtInt (n : Int) : String := toString n

/-! ## Models -/

/-- Go `type user struct`. -/
structure user where
  ID : Int
  Name : String
  Username : String
  Email : String
deriving DecidableEq, Repr

/-- Go `type userInfo struct`. -/
structure userInfo where
  Name : String
  Username : String
  Email : String
deriving DecidableEq, Repr

/-- Go `type postSummary struct`. -/
structure postSummary where
  ID : Int
  Title : String
  Body : String
deriving DecidableEq, Repr

/-- Go `type userPosts struct`. -/
structure userPosts where
  ID : Int
  UserInfo : userInfo
  Posts : Slice postSummary
deriving DecidableEq, Repr

/-- The composite literal `user{}`. -/
def user.zero : user := { ID := 0, Name := "", Username := "", Email := "" }

/-- The composite literal `userPosts{}`: every field zero, `Posts` the nil slice. -/
def userPosts.zero : userPosts :=
  { ID := 0, UserInfo := { Name := "", Username := "", Email := "" }, Posts := Slice.nil }

/-! ## HTTP values -/

/-- The constant `http.MethodGet`. -/
def http.MethodGet : String := "GET"

/-- The constant `http.StatusOK`. -/
def http.StatusOK : Int := 200

/-- The constant `http.StatusNotFound`. -/
def http.StatusNotFound : Int := 404

/-- An `*http.Request` as far as this program touches it: method, URL without
its query, and `URL.RawQuery`. -/
structure Request where
  Method : String
  URL : String
  RawQuery : String
deriving DecidableEq, Repr

/-- A response body reader: the bytes it delivers, and the error it ends with
(`none` when it ends with `io.EOF`). -/
structure Body where
  data : String
  readErr : error
deriving DecidableEq, Repr

/-- An `*http.Response` as far as this program touches it. -/
structure Response where
  StatusCode : Int
  Body : Body
deriving DecidableEq, Repr

/-- Go `ioutil.ReadAll`: the bytes read and the non-EOF error, if any. -/
def ioutil.ReadAll (b : Body) : String × error := (b.data, b.readErr)

/-- The interface `httpClient`: its single method `Do`. -/
structure httpClient where
  Do : Request → Except ErrorValue Response

/-- The library functions the client calls.
`NewRequest method url` is `http.NewRequest(method, url, nil)`;
`queryAdd raw key value` is the raw query obtained by parsing `raw` with
`URL.Query()`, adding `key=value` and re-encoding with `Encode()`;
`decodeUser body` and `decodePosts body` are `json.NewDecoder(body).Decode`
into a `user` and into a `[]postSummary`. -/
structure Libs where
  NewRequest : String → String → Except ErrorValue Request
  queryAdd : String → String → String → String
  decodeUser : Body → Except ErrorValue user
  decodePosts : Body → Except ErrorValue (Slice postSummary)

/-! ## Client layer -/

/-- Go `type typicodeClient struct`. -/
structure typicodeClient where
  Client : httpClient
  BaseUrl : String

/-- Go `func (typicodeClient typicodeClient) getUserById(userId int) (user, error)`. -/
def typicodeClient.getUserById (lib : Libs) (c : typicodeClient) (userId : Int) :
    user × error :=
  match lib.NewRequest http.MethodGet (c.BaseUrl ++ "/users/" ++ fmtInt userId) with
  | .error err =>
    (user.zero, errors.New
      ("Unexpected error creating client request for Cool Vendor's Get User API: error="
        ++ err.Error))
  | .ok req =>
    match c.Client.Do req with
    | .error err =>
      (user.zero, errors.New
        ("Unexpected communication or client policy error occurred trying to fetch userId="
          ++ fmtInt userId ++ " from Cool Vendor: " ++ err.Error))
    | .ok resp =>
      if resp.StatusCode = http.StatusOK then
        match lib.decodeUser resp.Body with
        | .error err =>
          (user.zero, errors.New
            ("Unable to parse response body as 'user' JSON for Cool Vendor's Get User By ID API: error="
              ++ err.Error))
        | .ok userObj => (userObj, none)
      else if resp.StatusCode = http.StatusNotFound then
        (user.zero, none)
      else
        match ioutil.ReadAll resp.Body with
        | (_, some err) =>
          (user.zero, errors.New
            ("Unexpected error trying to read response body for server error trying to fetch userId="
              ++ fmtInt userId ++ " from Cool Vendor: error=" ++ err.Error))
        | (body, none) =>
          (user.zero, errors.New
            ("Unexpected server error occurred trying to fetch userId="
              ++ fmtInt userId ++ " from Cool Vendor: " ++ body))

/-- Go `func (typicodeClient typicodeClient) getPostsByUserId(userId int) ([]postSummary, error)`. -/
def typicodeClient.getPostsByUserId (lib : Libs) (c : typicodeClient) (userId : Int) :
    Slice postSummary × error :=
  match lib.NewRequest http.MethodGet (c.BaseUrl ++ "/posts") with
  | .error err =>
    (Slice.elems [], errors.New
      ("Unexpected error creating client request for Cool Vendor's Get Posts API: error="
        ++ err.Error))
  | .ok req0 =>
    let req : Request :=
      { req0 with RawQuery := lib.queryAdd req0.RawQuery "userId" (fmtInt userId) }
    match c.Client.Do req with
    | .error err =>
      (Slice.elems [], errors.New
        ("Unexpected communication or client policy error occurred trying to fetch posts for userId="
          ++ fmtInt userId ++ " from Cool Vendor: " ++ err.Error))
    | .ok resp =>
      if resp.StatusCode = http.StatusOK then
        match lib.decodePosts resp.Body with
        | .error err =>
          (Slice.elems [], errors.New
            ("Unable to parse response body as '[]postSummary' JSON for Cool Vendor's Get Posts API: error="
              ++ err.Error))
        | .ok posts => (posts, none)
      else
        match ioutil.ReadAll resp.Body with
        | (_, some err) =>
          (Slice.elems [], errors.New
            ("Unexpected error trying to read response body for server error trying to fetch posts for userId="
              ++ fmtInt userId ++ " from Cool Vendor: error=" ++ err.Error))
        | (body, none) =>
          (Slice.elems [], errors.New
            ("Unexpected server error occurred trying to fetch posts for userId="
              ++ fmtInt userId ++ " from Cool Vendor: " ++ body))

/-! ## Service layer -/

/-- Go `type userPostService struct`. -/
structure userPostService where
  TypicodeClient : typicodeClient

/-- The part of `userPostService.getUserPostsByUserId` after `waitGroup.Wait()`:
the decision taken on the four variables `userResp`, `userErr`, `posts`,
`postsErr` written by the two goroutines. -/
def userPostService.merge (userResp : user) (userErr : error)
    (posts : Slice postSummary) (postsErr : error) : userPosts × error :=
  if !reflect.DeepEqual userResp user.zero then
    if postsErr = none then
      ({ ID := userResp.ID,
         UserInfo := { Name := userResp.Name, Username := userResp.Username,
                       Email := userResp.Email },
         Posts := posts }, none)
    else
      (userPosts.zero, postsErr)
  else if userErr = none then
    (userPosts.zero, none)
  else
    (userPosts.zero, userErr)

/-- Go `func (userPostService userPostService) getUserPostsByUserId(userId int) (userPosts, error)`:
both fetches are run to completion, then their outcomes are merged. -/
def userPostService.getUserPostsByUserId (lib : Libs) (svc : userPostService)
    (userId : Int) : userPosts × error :=
  let userOutcome := svc.TypicodeClient.getUserById lib userId
  let postsOutcome := svc.TypicodeClient.getPostsByUserId lib userId
  userPostService.merge userOutcome.1 userOutcome.2 postsOutcome.1 postsOutcome.2

/-! ## Service layer: the goroutines and the wait group

The statements of `userPostService.getUserPostsByUserId` up to the merge, one
transition per statement, interleaved in any order. -/

/-- The three threads of control of one call of the service. -/
inductive Actor where
  | main
  | userFetch
  | postsFetch
deriving DecidableEq, Repr

/-- Program points of the calling goroutine: the next statement to run.
`add1`, `go1`: the first `waitGroup.Add(1)` and `go func()`; `add2`, `go2`: the
second pair; `wait`: `waitGroup.Wait()`; `merge`: the decision that reads the
four variables; `returned`: the function has returned. -/
inductive MainPc where
  | add1
  | go1
  | add2
  | go2
  | wait
  | merge
  | returned
deriving DecidableEq, Repr

/-- Program points of a spawned goroutine. `idle`: not started yet; `call`:
about to call the client; `storeVal`, `storeErr`: about to assign the first and
the second variable of the tuple assignment; `done`: about to run
`waitGroup.Done()`; `exited`: finished. -/
inductive WorkerPc where
  | idle
  | call
  | storeVal
  | storeErr
  | done
  | exited
deriving DecidableEq, Repr

/-- The state of one call of the service: program points, the counter of
`waitGroup`, the four captured variables, the values returned by each client
call and not yet assigned, and the returned pair. -/
structure SvcState where
  main : MainPc
  userG : WorkerPc
  postsG : WorkerPc
  counter : Int
  userResp : user
  userErr : error
  posts : Slice postSummary
  postsErr : error
  userOut : user × error
  postsOut : Slice postSummary × error
  result : Option (userPosts × error)

/-- The state on entry: the `var` declarations give every variable its zero
value and `sync.WaitGroup{}` has counter zero. -/
def SvcState.init : SvcState :=
  { main := MainPc.add1, userG := WorkerPc.idle, postsG := WorkerPc.idle, counter := 0,
    userResp := user.zero, userErr := none, posts := Slice.nil, postsErr := none,
    userOut := (user.zero, none), postsOut := (Slice.nil, none), result := none }

/-- One statement of `actor`, or `none` when `actor` cannot run: it is not
started, it has finished, or it is blocked in `waitGroup.Wait()` because the
counter is not zero. -/
def step (lib : Libs) (svc : userPostService) (userId : Int) (actor : Actor)
    (s : SvcState) : Option SvcState :=
  match actor with
  | Actor.main =>
    match s.main with
    | MainPc.add1 => some { s with counter := s.counter + 1, main := MainPc.go1 }
    | MainPc.go1 => some { s with userG := WorkerPc.call, main := MainPc.add2 }
    | MainPc.add2 => some { s with counter := s.counter + 1, main := MainPc.go2 }
    | MainPc.go2 => some { s with postsG := WorkerPc.call, main := MainPc.wait }
    | MainPc.wait => if s.counter = 0 then some { s with main := MainPc.merge } else none
    | MainPc.merge =>
      some { s with
        result := some (userPostService.merge s.userResp s.userErr s.posts s.postsErr),
        main := MainPc.returned }
    | MainPc.returned => none
  | Actor.userFetch =>
    match s.userG with
    | WorkerPc.idle => none
    | WorkerPc.call =>
      some { s with userOut := svc.TypicodeClient.getUserById lib userId,
                    userG := WorkerPc.storeVal }
    | WorkerPc.storeVal => some { s with userResp := s.userOut.1, userG := WorkerPc.storeErr }
    | WorkerPc.storeErr => some { s with userErr := s.userOut.2, userG := WorkerPc.done }
    | WorkerPc.done => some { s with counter := s.counter - 1, userG := WorkerPc.exited }
    | WorkerPc.exited => none
  | Actor.postsFetch =>
    match s.postsG with
    | WorkerPc.idle => none
    | WorkerPc.call =>
      some { s with postsOut := svc.TypicodeClient.getPostsByUserId lib userId,
                    postsG := WorkerPc.storeVal }
    | WorkerPc.storeVal => some { s with posts := s.postsOut.1, postsG := WorkerPc.storeErr }
    | WorkerPc.storeErr => some { s with postsErr := s.postsOut.2, postsG := WorkerPc.done }
    | WorkerPc.done => some { s with counter := s.counter - 1, postsG := WorkerPc.exited }
    | WorkerPc.exited => none

/-- Runs a schedule, a list naming which actor takes each next statement; `none`
when the schedule asks for an actor that cannot run. -/
def run (lib : Libs) (svc : userPostService) (userId : Int) :
    List Actor → SvcState → Option SvcState
  | [], s => some s
  | actor :: rest, s =>
    match step lib svc userId actor s with
    | none => none
    | some s' => run lib svc userId rest s'

/-- Statements executed so far by the calling goroutine. -/
def MainPc.rank : MainPc → Nat
  | MainPc.add1 => 0
  | MainPc.go1 => 1
  | MainPc.add2 => 2
  | MainPc.go2 => 3
  | MainPc.wait => 4
  | MainPc.merge => 5
  | MainPc.returned => 6

/-- Statements executed so far by a spawned goroutine. -/
def WorkerPc.rank : WorkerPc → Nat
  | WorkerPc.idle => 0
  | WorkerPc.call => 0
  | WorkerPc.storeVal => 1
  | WorkerPc.storeErr => 2
  | WorkerPc.done => 3
  | WorkerPc.exited => 4

/-- The facts that hold in every state reached from `SvcState.init`. -/
def SvcState.Inv (lib : Libs) (svc : userPostService) (userId : Int) (s : SvcState) : Prop :=
  (s.userG = WorkerPc.idle ↔ s.main.rank ≤ 1) ∧
  (s.postsG = WorkerPc.idle ↔ s.main.rank ≤ 3) ∧
  s.counter =
    (if 1 ≤ s.main.rank then 1 else 0) + (if 3 ≤ s.main.rank then 1 else 0)
      - (if s.userG = WorkerPc.exited then 1 else 0)
      - (if s.postsG = WorkerPc.exited then 1 else 0) ∧
  (5 ≤ s.main.rank → s.userG = WorkerPc.exited ∧ s.postsG = WorkerPc.exited) ∧
  (1 ≤ s.userG.rank → s.userOut = svc.TypicodeClient.getUserById lib userId) ∧
  (2 ≤ s.userG.rank → s.userResp = s.userOut.1) ∧
  (3 ≤ s.userG.rank → s.userErr = s.userOut.2) ∧
  (1 ≤ s.postsG.rank → s.postsOut = svc.TypicodeClient.getPostsByUserId lib userId) ∧
  (2 ≤ s.postsG.rank → s.posts = s.postsOut.1) ∧
  (3 ≤ s.postsG.rank → s.postsErr = s.postsOut.2) ∧
  (s.main = MainPc.returned →
    s.result = some (userPostService.merge s.userResp s.userErr s.posts s.postsErr))

/-! ## Controller layer -/

/-- The constant `http.StatusBadRequest`. -/
def http.StatusBadRequest : Int := 400

/-- The constant `http.StatusInternalServerError`. -/
def http.StatusInternalServerError : Int := 500

/-- The object handed to `c.IndentedJSON`: a `userPosts` value, or the map
`gin.H` with the single key `message`. -/
inductive Payload where
  | result : userPosts → Payload
  | H : String → Payload
deriving DecidableEq, Repr

/-- The effect of one call `c.IndentedJSON(code, obj)` on the response. -/
structure Reply where
  code : Int
  obj : Payload
deriving DecidableEq, Repr

/-- The part of the controller `getUserPostsByUserId` after the service call:
the mapping of the pair `userPostsResp, err` to one `c.IndentedJSON` call.
`userId` is the raw path parameter. -/
def getUserPostsByUserId.respond (userId : String) (userPostsResp : userPosts)
    (err : error) : Reply :=
  if !reflect.DeepEqual userPostsResp userPosts.zero then
    { code := http.StatusOK, obj := Payload.result userPostsResp }
  else
    match err with
    | none =>
      { code := http.StatusNotFound, obj := Payload.H ("Could not find userId=" ++ userId) }
    | some e =>
      { code := http.StatusInternalServerError, obj := Payload.H e.Error }

/-- Go `func getUserPostsByUserId(c *gin.Context)`. `userId` is
`c.Param("userId")`, `Atoi` is the library function `strconv.Atoi`, and
`userPostServiceImpl` is the package variable of that name. -/
def getUserPostsByUserId (Atoi : String → Except ErrorValue Int) (lib : Libs)
    (userPostServiceImpl : userPostService) (userId : String) : Reply :=
  match Atoi userId with
  | .error _ =>
    { code := http.StatusBadRequest,
      obj := Payload.H ("Expected ID in integer format, but got '" ++ userId ++ "' instead") }
  | .ok userIdInt =>
    let outcome := userPostServiceImpl.getUserPostsByUserId lib userIdInt
    getUserPostsByUserId.respond userId outcome.1 outcome.2

/-! ## Test doubles of `main_test.go` -/

/-- The test variable `mockBaseURL`. -/
def mockBaseURL : String := "https://cool-vendor.com"

/-- The test variable `userId`. -/
def userId : Int := 987654

/-- The test variable `errMsg500`. -/
def errMsg500 : String := "world.execute (me);"

/-- The test variable `badReadCloserErrMsg`. -/
def badReadCloserErrMsg : String := "THE WORLD IS OVER!"

/-- The test variable `errFoo`. -/
def errFoo : ErrorValue := ⟨"ooga-booga"⟩

/-- The test variable `testUser`. -/
def testUser : user :=
  { ID := userId, Name := "Chacha", Username := "chacha22", Email := "chacha22@gmail.com" }

/-- The test variable `posts`. -/
def posts : Slice postSummary :=
  Slice.elems [{ ID := 42, Title := "How to Adult", Body := "N/A" }]

/-- The test variable `testUserPosts`. -/
def testUserPosts : userPosts :=
  { ID := testUser.ID,
    UserInfo := { Name := testUser.Name, Username := testUser.Username,
                  Email := testUser.Email },
    Posts := posts }

/-- A body delivered in full: `ioutil.NopCloser(strings.NewReader(text))`. -/
def readerOf (text : String) : Body := { data := text, readErr := none }

/-- The test type `badReadCloser`: every read fails. -/
def badReadCloser : Body := { data := "", readErr := some ⟨badReadCloserErrMsg⟩ }

/-- The text `json.Marshal(testUser)`. -/
def testUserJson : String :=
  "\x7b\"id\":987654,\"name\":\"Chacha\",\"username\":\"chacha22\",\"email\":\"chacha22@gmail.com\"\x7d"

/-- The text `json.Marshal(posts)`. -/
def postsJson : String :=
  "[\x7b\"id\":42,\"title\":\"How to Adult\",\"body\":\"N/A\"\x7d]"

/-- A finite table of library behaviour, agreeing with the Go libraries on the
inputs used in the concrete scenarios below: URLs built from `mockBaseURL` parse
and carry no query; adding `userId` to an empty query gives `userId=<id>`; the
body `testUserJson` decodes as `testUser` and the empty JSON object as `user{}`;
`postsJson` decodes as `posts` and the empty JSON array as the empty non-nil
slice. Bodies outside the table are rejected by it. -/
def testLibs : Libs where
  NewRequest := fun method url => .ok { Method := method, URL := url, RawQuery := "" }
  queryAdd := fun raw key value =>
    if raw = "" then key ++ "=" ++ value else raw ++ "&" ++ key ++ "=" ++ value
  decodeUser := fun body =>
    if body.readErr = none ∧ body.data = testUserJson then .ok testUser
    else if body.readErr = none ∧ body.data = "\x7b\x7d" then .ok user.zero
    else .error ⟨"json: cannot decode body into user"⟩
  decodePosts := fun body =>
    if body.readErr = none ∧ body.data = postsJson then .ok posts
    else if body.readErr = none ∧ body.data = "[]" then .ok (Slice.elems [])
    else .error ⟨"json: cannot decode body into []postSummary"⟩

/-- The test type `mockHTTPClient` with `mockHTTPClientDo` set as in the service
tests: the request for the user URL is answered by `userAnswer`, every other
request by `postsAnswer`. -/
def mockHTTPClient (userAnswer postsAnswer : Except ErrorValue Response) : httpClient where
  Do := fun r =>
    if r.URL = mockBaseURL ++ "/users/" ++ fmtInt userId ∧ r.RawQuery = "" then userAnswer
    else postsAnswer

/-- The service under test, wired as in `main_test.go`. -/
def testService (userAnswer postsAnswer : Except ErrorValue Response) : userPostService :=
  { TypicodeClient := { Client := mockHTTPClient userAnswer postsAnswer, BaseUrl := mockBaseURL } }

/-- The library function `strconv.Atoi` on a 64-bit platform: an optional sign,
then one or more decimal digits, the value within the range of `int`. The error
texts are those of Go for inputs made of printable ASCII without quote or
backslash. -/
def decimalAtoi (s : String) : Except ErrorValue Int :=
  let digits : List Char :=
    match s.data with
    | '-' :: rest => rest
    | '+' :: rest => rest
    | all => all
  if digits.isEmpty || !digits.all Char.isDigit then
    .error ⟨"strconv.Atoi: parsing \"" ++ s ++ "\": invalid syntax"⟩
  else
    let magnitude : Nat := digits.foldl (fun acc ch => acc * 10 + (ch.toNat - 48)) 0
    let value : Int :=
      match s.data with
      | '-' :: _ => - (magnitude : Int)
      | _ => (magnitude : Int)
    if value < -9223372036854775808 ∨ 9223372036854775807 < value then
      .error ⟨"strconv.Atoi: parsing \"" ++ s ++ "\": value out of range"⟩
    else
      .ok value

/-- A schedule in which the user goroutine runs to its end before the posts
goroutine is started. -/
def userFirstSchedule : List Actor :=
  [Actor.main, Actor.main, Actor.userFetch, Actor.userFetch, Actor.userFetch,
   Actor.userFetch, Actor.main, Actor.main, Actor.postsFetch, Actor.postsFetch,
   Actor.postsFetch, Actor.postsFetch, Actor.main, Actor.main]

/-- The state in which `userFirstSchedule` ends when the user endpoint answers
500 with `errMsg500` and the posts endpoint answers 200 with `postsJson`. -/
def userFailedFinalState : SvcState :=
  { main := MainPc.returned, userG := WorkerPc.exited, postsG := WorkerPc.exited,
    counter := 0,
    userResp := user.zero,
    userErr := some ⟨"Unexpected server error occurred trying to fetch userId=987654 from Cool Vendor: world.execute (me);"⟩,
    posts := posts, postsErr := none,
    userOut := (user.zero,
      some ⟨"Unexpected server error occurred trying to fetch userId=987654 from Cool Vendor: world.execute (me);"⟩),
    postsOut := (posts, none),
    result := some (userPosts.zero,
      some ⟨"Unexpected server error occurred trying to fetch userId=987654 from Cool Vendor: world.execute (me);"⟩) }

/-! ## Merge step: one lemma per branch -/

theorem merge_found_postsOk (u : user) (userErr : error) (ps : Slice postSummary)
    (hfound : u ≠ user.zero) :
    userPostService.merge u userErr ps none =
      ({ ID := u.ID,
         UserInfo := { Name := u.Name, Username := u.Username, Email := u.Email },
         Posts := ps }, none) := by
  simp [userPostService.merge, reflect.DeepEqual, hfound]

theorem merge_found_postsErr (u : user) (userErr : error) (ps : Slice postSummary)
    (e : ErrorValue) (hfound : u ≠ user.zero) :
    userPostService.merge u userErr ps (some e) = (userPosts.zero, some e) := by
  simp [userPostService.merge, reflect.DeepEqual, hfound]

theorem merge_absent_userOk (ps : Slice postSummary) (postsErr : error) :
    userPostService.merge user.zero none ps postsErr = (userPosts.zero, none) := by
  simp [userPostService.merge, reflect.DeepEqual]

theorem merge_absent_userErr (e : ErrorValue) (ps : Slice postSummary) (postsErr : error) :
    userPostService.merge user.zero (some e) ps postsErr = (userPosts.zero, some e) := by
  simp [userPostService.merge, reflect.DeepEqual]

/-- A result assembled from a profile that is not `user{}` is not `userPosts{}`,
whatever its posts are. -/
theorem assembled_ne_zero (u : user) (ps : Slice postSummary) (hfound : u ≠ user.zero) :
    ({ ID := u.ID,
       UserInfo := { Name := u.Name, Username := u.Username, Email := u.Email },
       Posts := ps } : userPosts) ≠ userPosts.zero := by
  intro h
  apply hfound
  cases u with
  | mk i n un em =>
    simp only [userPosts.zero, userPosts.mk.injEq, userInfo.mk.injEq] at h
    obtain ⟨h1, ⟨h2, h3, h4⟩, _⟩ := h
    simp [user.zero, h1, h2, h3, h4]

theorem service_eq_merge (lib : Libs) (svc : userPostService) (userId : Int)
    (u : user) (userErr : error) (ps : Slice postSummary) (postsErr : error)
    (huser : svc.TypicodeClient.getUserById lib userId = (u, userErr))
    (hposts : svc.TypicodeClient.getPostsByUserId lib userId = (ps, postsErr)) :
    userPostService.getUserPostsByUserId lib svc userId =
      userPostService.merge u userErr ps postsErr := by
  simp [userPostService.getUserPostsByUserId, huser, hposts]

/-! ## Service: the four branches of the decision -/

/-- C1. When the user fetch yielded a profile `u` other than `user{}` (with any
user error value) and the posts fetch yielded `ps` with a nil error, the
service returns a nil error and `userPosts{ID: u.ID, UserInfo: {u.Name,
u.Username, u.Email}, Posts: ps}`: the id is the one of the profile and the
posts are the fetched slice itself. -/
theorem getUserPostsByUserId_found_postsOk (lib : Libs) (svc : userPostService)
    (userId : Int) (u : user) (userErr : error) (ps : Slice postSummary)
    (hfound : u ≠ user.zero)
    (huser : svc.TypicodeClient.getUserById lib userId = (u, userErr))
    (hposts : svc.TypicodeClient.getPostsByUserId lib userId = (ps, none)) :
    userPostService.getUserPostsByUserId lib svc userId =
      ({ ID := u.ID,
         UserInfo := { Name := u.Name, Username := u.Username, Email := u.Email },
         Posts := ps }, none) := by
  rw [service_eq_merge lib svc userId u userErr ps none huser hposts]
  exact merge_found_postsOk u userErr ps hfound

/-- Witness for C1: the scenario of `TestUserPostServiceGetUserPostsByIdSuccess`. -/
theorem getUserPostsByUserId_found_postsOk_witness :
    testUser ≠ user.zero ∧
    (testService (.ok ⟨200, readerOf testUserJson⟩)
        (.ok ⟨200, readerOf postsJson⟩)).TypicodeClient.getUserById testLibs userId
      = (testUser, none) ∧
    (testService (.ok ⟨200, readerOf testUserJson⟩)
        (.ok ⟨200, readerOf postsJson⟩)).TypicodeClient.getPostsByUserId testLibs userId
      = (posts, none) ∧
    userPostService.getUserPostsByUserId testLibs
        (testService (.ok ⟨200, readerOf testUserJson⟩) (.ok ⟨200, readerOf postsJson⟩))
        userId
      = (testUserPosts, none) :=
  ⟨by decide, by rfl, by rfl,
   getUserPostsByUserId_found_postsOk testLibs
     (testService (.ok ⟨200, readerOf testUserJson⟩) (.ok ⟨200, readerOf postsJson⟩))
     userId testUser none posts (by decide) (by rfl) (by rfl)⟩

/-- C2. When the user fetch yielded `user{}` with a nil error, the service
returns `userPosts{}` and a nil error, whatever slice and whatever error
(nil or not) the posts fetch yielded. -/
theorem getUserPostsByUserId_absent_userOk (lib : Libs) (svc : userPostService)
    (userId : Int) (ps : Slice postSummary) (postsErr : error)
    (huser : svc.TypicodeClient.getUserById lib userId = (user.zero, none))
    (hposts : svc.TypicodeClient.getPostsByUserId lib userId = (ps, postsErr)) :
    userPostService.getUserPostsByUserId lib svc userId = (userPosts.zero, none) := by
  rw [service_eq_merge lib svc userId user.zero none ps postsErr huser hposts]
  exact merge_absent_userOk ps postsErr

/-- Witness for C2: the user endpoint answers 404 while the posts endpoint
answers 500, and the posts error is not returned. -/
theorem getUserPostsByUserId_absent_userOk_witness :
    (testService (.ok ⟨404, readerOf ""⟩)
        (.ok ⟨500, readerOf errMsg500⟩)).TypicodeClient.getUserById testLibs userId
      = (user.zero, none) ∧
    (testService (.ok ⟨404, readerOf ""⟩)
        (.ok ⟨500, readerOf errMsg500⟩)).TypicodeClient.getPostsByUserId testLibs userId
      = (Slice.elems [], some ⟨"Unexpected server error occurred trying to fetch posts for userId=987654 from Cool Vendor: world.execute (me);"⟩) ∧
    userPostService.getUserPostsByUserId testLibs
        (testService (.ok ⟨404, readerOf ""⟩) (.ok ⟨500, readerOf errMsg500⟩)) userId
      = (userPosts.zero, none) :=
  ⟨by rfl, by rfl,
   getUserPostsByUserId_absent_userOk testLibs
     (testService (.ok ⟨404, readerOf ""⟩) (.ok ⟨500, readerOf errMsg500⟩)) userId
     (Slice.elems []) _ (by rfl) (by rfl)⟩

/-- C3. When the user fetch yielded a profile other than `user{}` and the posts
fetch yielded a non-nil error `e`, the service returns `userPosts{}` together
with `e`; the returned result carries no field of the profile and no post. -/
theorem getUserPostsByUserId_found_postsErr (lib : Libs) (svc : userPostService)
    (userId : Int) (u : user) (userErr : error) (ps : Slice postSummary)
    (e : ErrorValue) (hfound : u ≠ user.zero)
    (huser : svc.TypicodeClient.getUserById lib userId = (u, userErr))
    (hposts : svc.TypicodeClient.getPostsByUserId lib userId = (ps, some e)) :
    userPostService.getUserPostsByUserId lib svc userId = (userPosts.zero, some e) := by
  rw [service_eq_merge lib svc userId u userErr ps (some e) huser hposts]
  exact merge_found_postsErr u userErr ps e hfound

/-- Witness for C3: the scenario of `TestUserPostServiceGetUserPostsByIdPostsError`. -/
theorem getUserPostsByUserId_found_postsErr_witness :
    testUser ≠ user.zero ∧
    (testService (.ok ⟨200, readerOf testUserJson⟩)
        (.ok ⟨500, readerOf errMsg500⟩)).TypicodeClient.getUserById testLibs userId
      = (testUser, none) ∧
    (testService (.ok ⟨200, readerOf testUserJson⟩)
        (.ok ⟨500, readerOf errMsg500⟩)).TypicodeClient.getPostsByUserId testLibs userId
      = (Slice.elems [], some ⟨"Unexpected server error occurred trying to fetch posts for userId=987654 from Cool Vendor: world.execute (me);"⟩) ∧
    userPostService.getUserPostsByUserId testLibs
        (testService (.ok ⟨200, readerOf testUserJson⟩) (.ok ⟨500, readerOf errMsg500⟩))
        userId
      = (userPosts.zero, some ⟨"Unexpected server error occurred trying to fetch posts for userId=987654 from Cool Vendor: world.execute (me);"⟩) :=
  ⟨by decide, by rfl, by rfl,
   getUserPostsByUserId_found_postsErr testLibs
     (testService (.ok ⟨200, readerOf testUserJson⟩) (.ok ⟨500, readerOf errMsg500⟩))
     userId testUser none (Slice.elems []) _ (by decide) (by rfl) (by rfl)⟩

/-- C4. When the user fetch yielded `user{}` together with a non-nil error `e`,
the service returns `userPosts{}` together with `e`, whatever the posts fetch
yielded: a fetched slice is dropped, and a posts error is not the one
returned. -/
theorem getUserPostsByUserId_absent_userErr (lib : Libs) (svc : userPostService)
    (userId : Int) (e : ErrorValue) (ps : Slice postSummary) (postsErr : error)
    (huser : svc.TypicodeClient.getUserById lib userId = (user.zero, some e))
    (hposts : svc.TypicodeClient.getPostsByUserId lib userId = (ps, postsErr)) :
    userPostService.getUserPostsByUserId lib svc userId = (userPosts.zero, some e) := by
  rw [service_eq_merge lib svc userId user.zero (some e) ps postsErr huser hposts]
  exact merge_absent_userErr e ps postsErr

/-- Witness for C4: the user endpoint answers 500 and the posts endpoint fails at
the transport; the error returned is the one of the user fetch. -/
theorem getUserPostsByUserId_absent_userErr_witness :
    (testService (.ok ⟨500, readerOf errMsg500⟩)
        (.error errFoo)).TypicodeClient.getUserById testLibs userId
      = (user.zero, some ⟨"Unexpected server error occurred trying to fetch userId=987654 from Cool Vendor: world.execute (me);"⟩) ∧
    (testService (.ok ⟨500, readerOf errMsg500⟩)
        (.error errFoo)).TypicodeClient.getPostsByUserId testLibs userId
      = (Slice.elems [], some ⟨"Unexpected communication or client policy error occurred trying to fetch posts for userId=987654 from Cool Vendor: ooga-booga"⟩) ∧
    userPostService.getUserPostsByUserId testLibs
        (testService (.ok ⟨500, readerOf errMsg500⟩) (.error errFoo)) userId
      = (userPosts.zero, some ⟨"Unexpected server error occurred trying to fetch userId=987654 from Cool Vendor: world.execute (me);"⟩) :=
  ⟨by rfl, by rfl,
   getUserPostsByUserId_absent_userErr testLibs
     (testService (.ok ⟨500, readerOf errMsg500⟩) (.error errFoo)) userId
     _ (Slice.elems []) _ (by rfl) (by rfl)⟩

/-! ## Client: one lemma per response class -/

theorem getUserById_decoded (lib : Libs) (c : typicodeClient) (userId : Int)
    (req : Request) (body : Body) (u : user)
    (hreq : lib.NewRequest http.MethodGet (c.BaseUrl ++ "/users/" ++ fmtInt userId) = .ok req)
    (hdo : c.Client.Do req = .ok ⟨http.StatusOK, body⟩)
    (hdec : lib.decodeUser body = .ok u) :
    c.getUserById lib userId = (u, none) := by
  simp [typicodeClient.getUserById, hreq, hdo, hdec]

theorem getPostsByUserId_decoded (lib : Libs) (c : typicodeClient) (userId : Int)
    (req : Request) (body : Body) (ps : Slice postSummary)
    (hreq : lib.NewRequest http.MethodGet (c.BaseUrl ++ "/posts") = .ok req)
    (hdo : c.Client.Do
        { req with RawQuery := lib.queryAdd req.RawQuery "userId" (fmtInt userId) }
      = .ok ⟨http.StatusOK, body⟩)
    (hdec : lib.decodePosts body = .ok ps) :
    c.getPostsByUserId lib userId = (ps, none) := by
  simp [typicodeClient.getPostsByUserId, hreq, hdo, hdec]

theorem getPostsByUserId_not200 (lib : Libs) (c : typicodeClient) (userId : Int)
    (req : Request) (st : Int) (body : Body)
    (hreq : lib.NewRequest http.MethodGet (c.BaseUrl ++ "/posts") = .ok req)
    (hdo : c.Client.Do
        { req with RawQuery := lib.queryAdd req.RawQuery "userId" (fmtInt userId) }
      = .ok ⟨st, body⟩)
    (h200 : st ≠ http.StatusOK) :
    c.getPostsByUserId lib userId =
      (Slice.elems [],
        match body.readErr with
        | some cause =>
          some ⟨"Unexpected error trying to read response body for server error trying to fetch posts for userId="
            ++ fmtInt userId ++ " from Cool Vendor: error=" ++ cause.Error⟩
        | none =>
          some ⟨"Unexpected server error occurred trying to fetch posts for userId="
            ++ fmtInt userId ++ " from Cool Vendor: " ++ body.data⟩) := by
  cases hr : body.readErr <;>
    simp [typicodeClient.getPostsByUserId, hreq, hdo, h200, ioutil.ReadAll, errors.New, hr]

/-! ## Service composed with the client -/

/-- C5, as stated, fails: the user endpoint answers 200 with the empty JSON
object, which decodes as `user{}`, and the posts endpoint answers 200 with one
post. The service returns `userPosts{}` with a nil error, so the posts of the
result are the nil slice and not the decoded list. -/
theorem zero_user_both200_counterexample :
    testLibs.NewRequest http.MethodGet (mockBaseURL ++ "/users/" ++ fmtInt userId)
      = .ok ⟨"GET", "https://cool-vendor.com/users/987654", ""⟩ ∧
    (mockHTTPClient (.ok ⟨200, readerOf "\x7b\x7d"⟩) (.ok ⟨200, readerOf postsJson⟩)).Do
        ⟨"GET", "https://cool-vendor.com/users/987654", ""⟩
      = .ok ⟨200, readerOf "\x7b\x7d"⟩ ∧
    testLibs.decodeUser (readerOf "\x7b\x7d") = .ok user.zero ∧
    testLibs.NewRequest http.MethodGet (mockBaseURL ++ "/posts")
      = .ok ⟨"GET", "https://cool-vendor.com/posts", ""⟩ ∧
    (mockHTTPClient (.ok ⟨200, readerOf "\x7b\x7d"⟩) (.ok ⟨200, readerOf postsJson⟩)).Do
        ⟨"GET", "https://cool-vendor.com/posts", "userId=987654"⟩
      = .ok ⟨200, readerOf postsJson⟩ ∧
    testLibs.decodePosts (readerOf postsJson) = .ok posts ∧
    userPostService.getUserPostsByUserId testLibs
        (testService (.ok ⟨200, readerOf "\x7b\x7d"⟩) (.ok ⟨200, readerOf postsJson⟩)) userId
      = (userPosts.zero, none) ∧
    (userPostService.getUserPostsByUserId testLibs
        (testService (.ok ⟨200, readerOf "\x7b\x7d"⟩) (.ok ⟨200, readerOf postsJson⟩))
        userId).1.Posts ≠ posts :=
  ⟨by rfl, by rfl, by rfl, by rfl, by rfl, by rfl, by rfl, by decide⟩

/-- C5, amended. When the user endpoint answers 200 with a body that decodes as
a user `u` other than `user{}`, and the posts endpoint answers 200 with a body
that decodes as the slice `ps`, the service returns a nil error and the result
whose id, name, username and email are those of `u` and whose posts are `ps`. -/
theorem aggregate_both200 (lib : Libs) (svc : userPostService) (userId : Int)
    (reqU : Request) (bodyU : Body) (u : user)
    (reqP : Request) (bodyP : Body) (ps : Slice postSummary)
    (hreqU : lib.NewRequest http.MethodGet
        (svc.TypicodeClient.BaseUrl ++ "/users/" ++ fmtInt userId) = .ok reqU)
    (hdoU : svc.TypicodeClient.Client.Do reqU = .ok ⟨http.StatusOK, bodyU⟩)
    (hdecU : lib.decodeUser bodyU = .ok u)
    (hreqP : lib.NewRequest http.MethodGet (svc.TypicodeClient.BaseUrl ++ "/posts")
      = .ok reqP)
    (hdoP : svc.TypicodeClient.Client.Do
        { reqP with RawQuery := lib.queryAdd reqP.RawQuery "userId" (fmtInt userId) }
      = .ok ⟨http.StatusOK, bodyP⟩)
    (hdecP : lib.decodePosts bodyP = .ok ps)
    (hfound : u ≠ user.zero) :
    userPostService.getUserPostsByUserId lib svc userId =
      ({ ID := u.ID,
         UserInfo := { Name := u.Name, Username := u.Username, Email := u.Email },
         Posts := ps }, none) := by
  rw [service_eq_merge lib svc userId u none ps none
    (getUserById_decoded lib svc.TypicodeClient userId reqU bodyU u hreqU hdoU hdecU)
    (getPostsByUserId_decoded lib svc.TypicodeClient userId reqP bodyP ps hreqP hdoP hdecP)]
  exact merge_found_postsOk u none ps hfound

/-- Witness for the amended C5: the concrete scenario of the specification,
id 987654 with the user Chacha and the post "How to Adult". -/
theorem aggregate_both200_witness :
    testUser ≠ user.zero ∧
    userPostService.getUserPostsByUserId testLibs
        (testService (.ok ⟨200, readerOf testUserJson⟩) (.ok ⟨200, readerOf postsJson⟩))
        987654
      = ({ ID := 987654,
           UserInfo := { Name := "Chacha", Username := "chacha22",
                         Email := "chacha22@gmail.com" },
           Posts := Slice.elems [{ ID := 42, Title := "How to Adult", Body := "N/A" }] },
         none) :=
  ⟨by decide,
   aggregate_both200 testLibs
     (testService (.ok ⟨200, readerOf testUserJson⟩) (.ok ⟨200, readerOf postsJson⟩))
     987654 ⟨"GET", "https://cool-vendor.com/users/987654", ""⟩ (readerOf testUserJson)
     testUser ⟨"GET", "https://cool-vendor.com/posts", ""⟩ (readerOf postsJson) posts
     (by rfl) (by rfl) (by rfl) (by rfl) (by rfl) (by rfl) (by decide)⟩

/-- C6, as stated, fails: the user endpoint answers 200 with the empty JSON
object, which decodes as `user{}`, and the posts endpoint answers 500. The
service returns `userPosts{}` with a nil error, not a non-nil one. -/
theorem zero_user_posts500_counterexample :
    testLibs.NewRequest http.MethodGet (mockBaseURL ++ "/users/" ++ fmtInt userId)
      = .ok ⟨"GET", "https://cool-vendor.com/users/987654", ""⟩ ∧
    (mockHTTPClient (.ok ⟨200, readerOf "\x7b\x7d"⟩) (.ok ⟨500, readerOf errMsg500⟩)).Do
        ⟨"GET", "https://cool-vendor.com/users/987654", ""⟩
      = .ok ⟨200, readerOf "\x7b\x7d"⟩ ∧
    testLibs.decodeUser (readerOf "\x7b\x7d") = .ok user.zero ∧
    testLibs.NewRequest http.MethodGet (mockBaseURL ++ "/posts")
      = .ok ⟨"GET", "https://cool-vendor.com/posts", ""⟩ ∧
    (mockHTTPClient (.ok ⟨200, readerOf "\x7b\x7d"⟩) (.ok ⟨500, readerOf errMsg500⟩)).Do
        ⟨"GET", "https://cool-vendor.com/posts", "userId=987654"⟩
      = .ok ⟨500, readerOf errMsg500⟩ ∧
    (500 : Int) ≠ http.StatusOK ∧ (500 : Int) ≠ http.StatusNotFound ∧
    (userPostService.getUserPostsByUserId testLibs
        (testService (.ok ⟨200, readerOf "\x7b\x7d"⟩) (.ok ⟨500, readerOf errMsg500⟩))
        userId).2 = none :=
  ⟨by rfl, by rfl, by rfl, by rfl, by rfl, by decide, by decide, by rfl⟩

/-- C6, amended. When the user endpoint answers 200 with a body that decodes as
a user other than `user{}`, and the posts endpoint answers with a status other
than 200 and 404, the service returns `userPosts{}` together with a non-nil
error, whether or not the posts body can be read. -/
theorem aggregate_posts_failed (lib : Libs) (svc : userPostService) (userId : Int)
    (reqU : Request) (bodyU : Body) (u : user)
    (reqP : Request) (st : Int) (bodyP : Body)
    (hreqU : lib.NewRequest http.MethodGet
        (svc.TypicodeClient.BaseUrl ++ "/users/" ++ fmtInt userId) = .ok reqU)
    (hdoU : svc.TypicodeClient.Client.Do reqU = .ok ⟨http.StatusOK, bodyU⟩)
    (hdecU : lib.decodeUser bodyU = .ok u)
    (hreqP : lib.NewRequest http.MethodGet (svc.TypicodeClient.BaseUrl ++ "/posts")
      = .ok reqP)
    (hdoP : svc.TypicodeClient.Client.Do
        { reqP with RawQuery := lib.queryAdd reqP.RawQuery "userId" (fmtInt userId) }
      = .ok ⟨st, bodyP⟩)
    (h200 : st ≠ http.StatusOK) (_h404 : st ≠ http.StatusNotFound)
    (hfound : u ≠ user.zero) :
    (userPostService.getUserPostsByUserId lib svc userId).1 = userPosts.zero ∧
    (userPostService.getUserPostsByUserId lib svc userId).2 ≠ none := by
  rw [service_eq_merge lib svc userId u none _ _
    (getUserById_decoded lib svc.TypicodeClient userId reqU bodyU u hreqU hdoU hdecU)
    (getPostsByUserId_not200 lib svc.TypicodeClient userId reqP st bodyP hreqP hdoP h200)]
  cases bodyP.readErr <;> simp [merge_found_postsErr, hfound]

/-- Witness for the amended C6: the scenario of
`TestUserPostServiceGetUserPostsByIdPostsError`. -/
theorem aggregate_posts_failed_witness :
    testUser ≠ user.zero ∧ (500 : Int) ≠ http.StatusOK ∧ (500 : Int) ≠ http.StatusNotFound ∧
    (userPostService.getUserPostsByUserId testLibs
        (testService (.ok ⟨200, readerOf testUserJson⟩) (.ok ⟨500, readerOf errMsg500⟩))
        userId).1 = userPosts.zero ∧
    (userPostService.getUserPostsByUserId testLibs
        (testService (.ok ⟨200, readerOf testUserJson⟩) (.ok ⟨500, readerOf errMsg500⟩))
        userId).2 ≠ none :=
  ⟨by decide, by decide, by decide,
   aggregate_posts_failed testLibs
     (testService (.ok ⟨200, readerOf testUserJson⟩) (.ok ⟨500, readerOf errMsg500⟩))
     userId ⟨"GET", "https://cool-vendor.com/users/987654", ""⟩ (readerOf testUserJson)
     testUser ⟨"GET", "https://cool-vendor.com/posts", ""⟩ 500 (readerOf errMsg500)
     (by rfl) (by rfl) (by rfl) (by rfl) (by rfl) (by decide) (by decide) (by decide)⟩

/-! ## Service: the three terminal states -/

/-- C7. For every value of the four variables the two fetches write (user, user
error, posts, posts error), the pair the merge step returns is in exactly one of
three states: a result other than `userPosts{}` with a nil error, `userPosts{}`
with a nil error, or `userPosts{}` with a non-nil error. A non-nil error never
comes with a result other than `userPosts{}`; the result differs from
`userPosts{}` exactly when the success branch is taken (profile other than
`user{}` and nil posts error), and there the `reflect.DeepEqual` test of the
controller answers false. The same three states hold for the pair returned by
`userPostService.getUserPostsByUserId` for every library, client and id. -/
theorem getUserPostsByUserId_three_states (u : user) (userErr : error)
    (ps : Slice postSummary) (postsErr : error) :
    (((userPostService.merge u userErr ps postsErr).1 ≠ userPosts.zero ∧
        (userPostService.merge u userErr ps postsErr).2 = none) ∨
      ((userPostService.merge u userErr ps postsErr).1 = userPosts.zero ∧
        (userPostService.merge u userErr ps postsErr).2 = none) ∨
      ((userPostService.merge u userErr ps postsErr).1 = userPosts.zero ∧
        (userPostService.merge u userErr ps postsErr).2 ≠ none)) ∧
    ¬ (((userPostService.merge u userErr ps postsErr).1 ≠ userPosts.zero ∧
        (userPostService.merge u userErr ps postsErr).2 = none) ∧
      ((userPostService.merge u userErr ps postsErr).1 = userPosts.zero ∧
        (userPostService.merge u userErr ps postsErr).2 = none)) ∧
    ¬ (((userPostService.merge u userErr ps postsErr).1 ≠ userPosts.zero ∧
        (userPostService.merge u userErr ps postsErr).2 = none) ∧
      ((userPostService.merge u userErr ps postsErr).1 = userPosts.zero ∧
        (userPostService.merge u userErr ps postsErr).2 ≠ none)) ∧
    ¬ (((userPostService.merge u userErr ps postsErr).1 = userPosts.zero ∧
        (userPostService.merge u userErr ps postsErr).2 = none) ∧
      ((userPostService.merge u userErr ps postsErr).1 = userPosts.zero ∧
        (userPostService.merge u userErr ps postsErr).2 ≠ none)) ∧
    ¬ ((userPostService.merge u userErr ps postsErr).2 ≠ none ∧
        (userPostService.merge u userErr ps postsErr).1 ≠ userPosts.zero) ∧
    ((userPostService.merge u userErr ps postsErr).1 ≠ userPosts.zero ↔
      (u ≠ user.zero ∧ postsErr = none)) ∧
    (reflect.DeepEqual (userPostService.merge u userErr ps postsErr).1 userPosts.zero = false ↔
      (u ≠ user.zero ∧ postsErr = none)) ∧
    (∀ (lib : Libs) (svc : userPostService) (userId : Int),
      ((userPostService.getUserPostsByUserId lib svc userId).1 ≠ userPosts.zero ∧
        (userPostService.getUserPostsByUserId lib svc userId).2 = none) ∨
      ((userPostService.getUserPostsByUserId lib svc userId).1 = userPosts.zero ∧
        (userPostService.getUserPostsByUserId lib svc userId).2 = none) ∨
      ((userPostService.getUserPostsByUserId lib svc userId).1 = userPosts.zero ∧
        (userPostService.getUserPostsByUserId lib svc userId).2 ≠ none)) := by
  have key : ∀ (u : user) (userErr : error) (ps : Slice postSummary) (postsErr : error),
      ((userPostService.merge u userErr ps postsErr).1 ≠ userPosts.zero ∧
          (userPostService.merge u userErr ps postsErr).2 = none ∧
          u ≠ user.zero ∧ postsErr = none) ∨
      ((userPostService.merge u userErr ps postsErr).1 = userPosts.zero ∧
          ¬ (u ≠ user.zero ∧ postsErr = none)) := by
    intro u userErr ps postsErr
    by_cases hu : u = user.zero
    · subst hu
      right
      cases userErr with
      | none => simp [merge_absent_userOk]
      | some e => simp [merge_absent_userErr]
    · cases postsErr with
      | none =>
        left
        rw [merge_found_postsOk u userErr ps hu]
        exact ⟨assembled_ne_zero u ps hu, rfl, hu, rfl⟩
      | some e =>
        right
        simp [merge_found_postsErr u userErr ps e hu]
  have tri : ∀ (u : user) (userErr : error) (ps : Slice postSummary) (postsErr : error),
      ((userPostService.merge u userErr ps postsErr).1 ≠ userPosts.zero ∧
        (userPostService.merge u userErr ps postsErr).2 = none) ∨
      ((userPostService.merge u userErr ps postsErr).1 = userPosts.zero ∧
        (userPostService.merge u userErr ps postsErr).2 = none) ∨
      ((userPostService.merge u userErr ps postsErr).1 = userPosts.zero ∧
        (userPostService.merge u userErr ps postsErr).2 ≠ none) := by
    intro u userErr ps postsErr
    rcases key u userErr ps postsErr with ⟨h1, h2, _, _⟩ | ⟨h1, _⟩
    · exact Or.inl ⟨h1, h2⟩
    · by_cases h2 : (userPostService.merge u userErr ps postsErr).2 = none
      · exact Or.inr (Or.inl ⟨h1, h2⟩)
      · exact Or.inr (Or.inr ⟨h1, h2⟩)
  refine ⟨tri u userErr ps postsErr, ?_, ?_, ?_, ?_, ?_, ?_, ?_⟩
  · rintro ⟨⟨h1, _⟩, ⟨h2, _⟩⟩
    exact h1 h2
  · rintro ⟨⟨h1, _⟩, ⟨h2, _⟩⟩
    exact h1 h2
  · rintro ⟨⟨_, h1⟩, ⟨_, h2⟩⟩
    exact h2 h1
  · rintro ⟨h1, h2⟩
    rcases key u userErr ps postsErr with ⟨_, h3, _, _⟩ | ⟨h3, _⟩
    · exact h1 h3
    · exact h2 h3
  · rcases key u userErr ps postsErr with ⟨h1, _, h3, h4⟩ | ⟨h1, h2⟩
    · exact ⟨fun _ => ⟨h3, h4⟩, fun _ => h1⟩
    · exact ⟨fun h => absurd h1 h, fun h => absurd h h2⟩
  · rcases key u userErr ps postsErr with ⟨h1, _, h3, h4⟩ | ⟨h1, h2⟩
    · exact ⟨fun _ => ⟨h3, h4⟩, fun _ => by simp [reflect.DeepEqual, h1]⟩
    · exact ⟨fun h => by simp [reflect.DeepEqual, h1] at h, fun h => absurd h h2⟩
  · intro lib svc userId
    exact tri _ _ _ _

/-! ## Client: status handling -/

/-- C8. When the request is built and the transport answers with status 404,
`getUserById` returns `user{}` and a nil error, for every body and every JSON
decoder: the body plays no role in the outcome. -/
theorem getUserById_404 (lib : Libs) (c : typicodeClient) (userId : Int)
    (req : Request) (body : Body)
    (hreq : lib.NewRequest http.MethodGet (c.BaseUrl ++ "/users/" ++ fmtInt userId) = .ok req)
    (hdo : c.Client.Do req = .ok ⟨http.StatusNotFound, body⟩) :
    c.getUserById lib userId = (user.zero, none) := by
  simp [typicodeClient.getUserById, hreq, hdo, http.StatusOK, http.StatusNotFound]

/-- Witness for C8: a 404 answer whose body is a complete user document. -/
theorem getUserById_404_witness :
    testLibs.NewRequest http.MethodGet (mockBaseURL ++ "/users/" ++ fmtInt userId)
      = .ok ⟨"GET", "https://cool-vendor.com/users/987654", ""⟩ ∧
    (mockHTTPClient (.ok ⟨404, readerOf testUserJson⟩) (.error errFoo)).Do
        ⟨"GET", "https://cool-vendor.com/users/987654", ""⟩
      = .ok ⟨http.StatusNotFound, readerOf testUserJson⟩ ∧
    typicodeClient.getUserById testLibs
        { Client := mockHTTPClient (.ok ⟨404, readerOf testUserJson⟩) (.error errFoo),
          BaseUrl := mockBaseURL } userId
      = (user.zero, none) :=
  ⟨by rfl, by rfl,
   getUserById_404 testLibs
     { Client := mockHTTPClient (.ok ⟨404, readerOf testUserJson⟩) (.error errFoo),
       BaseUrl := mockBaseURL } userId
     ⟨"GET", "https://cool-vendor.com/users/987654", ""⟩ (readerOf testUserJson)
     (by rfl) (by rfl)⟩

/-- C9. When the request is built and the transport answers with a status other
than 200 and 404, `getUserById` returns `user{}` with an error: if the body is
read in full, its message is "Unexpected server error occurred trying to fetch
userId=", the decimal id, " from Cool Vendor: " and the body text; if reading
the body fails with cause `cause`, its message is "Unexpected error trying to
read response body for server error trying to fetch userId=", the decimal id,
" from Cool Vendor: error=" and the text of `cause`. -/
theorem getUserById_other_status (lib : Libs) (c : typicodeClient) (userId : Int)
    (req : Request) (st : Int) (body : Body)
    (hreq : lib.NewRequest http.MethodGet (c.BaseUrl ++ "/users/" ++ fmtInt userId) = .ok req)
    (hdo : c.Client.Do req = .ok ⟨st, body⟩)
    (h200 : st ≠ http.StatusOK) (h404 : st ≠ http.StatusNotFound) :
    (body.readErr = none →
      c.getUserById lib userId =
        (user.zero,
          some ⟨"Unexpected server error occurred trying to fetch userId="
            ++ fmtInt userId ++ " from Cool Vendor: " ++ body.data⟩)) ∧
    (∀ cause : ErrorValue, body.readErr = some cause →
      c.getUserById lib userId =
        (user.zero,
          some ⟨"Unexpected error trying to read response body for server error trying to fetch userId="
            ++ fmtInt userId ++ " from Cool Vendor: error=" ++ cause.Error⟩)) := by
  constructor
  · intro hr
    simp [typicodeClient.getUserById, hreq, hdo, h200, h404, ioutil.ReadAll, errors.New, hr]
  · intro cause hr
    simp [typicodeClient.getUserById, hreq, hdo, h200, h404, ioutil.ReadAll, errors.New, hr]

/-- Witness for C9: the scenarios of `TestTypicodeClientGetUserById500` and
`TestTypicodeClientGetUserById500BadResponseBody`. -/
theorem getUserById_other_status_witness :
    (500 : Int) ≠ http.StatusOK ∧ (500 : Int) ≠ http.StatusNotFound ∧
    typicodeClient.getUserById testLibs
        { Client := mockHTTPClient (.ok ⟨500, readerOf errMsg500⟩) (.error errFoo),
          BaseUrl := mockBaseURL } userId
      = (user.zero,
          some ⟨"Unexpected server error occurred trying to fetch userId=987654 from Cool Vendor: world.execute (me);"⟩) ∧
    typicodeClient.getUserById testLibs
        { Client := mockHTTPClient (.ok ⟨500, badReadCloser⟩) (.error errFoo),
          BaseUrl := mockBaseURL } userId
      = (user.zero,
          some ⟨"Unexpected error trying to read response body for server error trying to fetch userId=987654 from Cool Vendor: error=THE WORLD IS OVER!"⟩) :=
  ⟨by decide, by decide,
   (getUserById_other_status testLibs
     { Client := mockHTTPClient (.ok ⟨500, readerOf errMsg500⟩) (.error errFoo),
       BaseUrl := mockBaseURL } userId
     ⟨"GET", "https://cool-vendor.com/users/987654", ""⟩ 500 (readerOf errMsg500)
     (by rfl) (by rfl) (by decide) (by decide)).1 (by rfl),
   (getUserById_other_status testLibs
     { Client := mockHTTPClient (.ok ⟨500, badReadCloser⟩) (.error errFoo),
       BaseUrl := mockBaseURL } userId
     ⟨"GET", "https://cool-vendor.com/users/987654", ""⟩ 500 badReadCloser
     (by rfl) (by rfl) (by decide) (by decide)).2 ⟨badReadCloserErrMsg⟩ (by rfl)⟩

/-- C10. When the request is built and the transport answers with any status
other than 200, 404 included, `getPostsByUserId` returns the empty non-nil
slice with a non-nil error: if the body is read in full, its message is
"Unexpected server error occurred trying to fetch posts for userId=", the
decimal id, " from Cool Vendor: " and the body text; if reading the body fails
with cause `cause`, its message is the body-read message of `getUserById` with
"posts for userId=" in place of "userId=". -/
theorem getPostsByUserId_other_status (lib : Libs) (c : typicodeClient) (userId : Int)
    (req : Request) (st : Int) (body : Body)
    (hreq : lib.NewRequest http.MethodGet (c.BaseUrl ++ "/posts") = .ok req)
    (hdo : c.Client.Do
        { req with RawQuery := lib.queryAdd req.RawQuery "userId" (fmtInt userId) }
      = .ok ⟨st, body⟩)
    (h200 : st ≠ http.StatusOK) :
    (body.readErr = none →
      c.getPostsByUserId lib userId =
        (Slice.elems [],
          some ⟨"Unexpected server error occurred trying to fetch posts for userId="
            ++ fmtInt userId ++ " from Cool Vendor: " ++ body.data⟩)) ∧
    (∀ cause : ErrorValue, body.readErr = some cause →
      c.getPostsByUserId lib userId =
        (Slice.elems [],
          some ⟨"Unexpected error trying to read response body for server error trying to fetch posts for userId="
            ++ fmtInt userId ++ " from Cool Vendor: error=" ++ cause.Error⟩)) := by
  rw [getPostsByUserId_not200 lib c userId req st body hreq hdo h200]
  constructor
  · intro hr
    simp [hr]
  · intro cause hr
    simp [hr]

/-- Witness for C10: a 404 answer with a readable body, and the scenario of
`TestTypicodeClientGetPostsByUserId500BadResponseBody`. -/
theorem getPostsByUserId_other_status_witness :
    (404 : Int) ≠ http.StatusOK ∧ (500 : Int) ≠ http.StatusOK ∧
    typicodeClient.getPostsByUserId testLibs
        { Client := mockHTTPClient (.error errFoo) (.ok ⟨404, readerOf errMsg500⟩),
          BaseUrl := mockBaseURL } userId
      = (Slice.elems [],
          some ⟨"Unexpected server error occurred trying to fetch posts for userId=987654 from Cool Vendor: world.execute (me);"⟩) ∧
    typicodeClient.getPostsByUserId testLibs
        { Client := mockHTTPClient (.error errFoo) (.ok ⟨500, badReadCloser⟩),
          BaseUrl := mockBaseURL } userId
      = (Slice.elems [],
          some ⟨"Unexpected error trying to read response body for server error trying to fetch posts for userId=987654 from Cool Vendor: error=THE WORLD IS OVER!"⟩) :=
  ⟨by decide, by decide,
   (getPostsByUserId_other_status testLibs
     { Client := mockHTTPClient (.error errFoo) (.ok ⟨404, readerOf errMsg500⟩),
       BaseUrl := mockBaseURL } userId
     ⟨"GET", "https://cool-vendor.com/posts", ""⟩ 404 (readerOf errMsg500)
     (by rfl) (by rfl) (by decide)).1 (by rfl),
   (getPostsByUserId_other_status testLibs
     { Client := mockHTTPClient (.error errFoo) (.ok ⟨500, badReadCloser⟩),
       BaseUrl := mockBaseURL } userId
     ⟨"GET", "https://cool-vendor.com/posts", ""⟩ 500 badReadCloser
     (by rfl) (by rfl) (by decide)).2 ⟨badReadCloserErrMsg⟩ (by rfl)⟩

/-! ## Service: the join of the two goroutines -/

theorem init_inv (lib : Libs) (svc : userPostService) (userId : Int) :
    SvcState.init.Inv lib svc userId := by
  simp [SvcState.Inv, SvcState.init, MainPc.rank, WorkerPc.rank]

set_option maxRecDepth 4000 in
theorem step_main_inv (lib : Libs) (svc : userPostService) (userId : Int)
    (s s' : SvcState) (hinv : s.Inv lib svc userId)
    (hstep : step lib svc userId Actor.main s = some s') :
    s'.Inv lib svc userId := by
  obtain ⟨m, ug, pg, cnt, ur, ue, ps, pe, uo, po, res⟩ := s
  cases m <;> simp [step] at hstep
  · subst hstep; simp_all [SvcState.Inv, MainPc.rank, WorkerPc.rank]
  · subst hstep; simp_all [SvcState.Inv, MainPc.rank, WorkerPc.rank]
  · subst hstep; simp_all [SvcState.Inv, MainPc.rank, WorkerPc.rank]
    split_ifs <;> omega
  · subst hstep; simp_all [SvcState.Inv, MainPc.rank, WorkerPc.rank]
  · obtain ⟨hc, hs⟩ := hstep
    subst hs
    cases ug <;> cases pg <;> simp_all [SvcState.Inv, MainPc.rank, WorkerPc.rank]
  · subst hstep; simp_all [SvcState.Inv, MainPc.rank, WorkerPc.rank]

set_option maxRecDepth 4000 in
theorem step_user_inv (lib : Libs) (svc : userPostService) (userId : Int)
    (s s' : SvcState) (hinv : s.Inv lib svc userId)
    (hstep : step lib svc userId Actor.userFetch s = some s') :
    s'.Inv lib svc userId := by
  obtain ⟨m, ug, pg, cnt, ur, ue, ps, pe, uo, po, res⟩ := s
  cases ug <;> simp [step] at hstep
  · subst hstep; simp_all [SvcState.Inv, MainPc.rank, WorkerPc.rank]
  · subst hstep; simp_all [SvcState.Inv, MainPc.rank, WorkerPc.rank]
    intro h; subst h; simp at hinv
  · subst hstep; simp_all [SvcState.Inv, MainPc.rank, WorkerPc.rank]
    intro h; subst h; simp at hinv
  · subst hstep; simp_all [SvcState.Inv, MainPc.rank, WorkerPc.rank]
    ring

set_option maxRecDepth 4000 in
theorem step_posts_inv (lib : Libs) (svc : userPostService) (userId : Int)
    (s s' : SvcState) (hinv : s.Inv lib svc userId)
    (hstep : step lib svc userId Actor.postsFetch s = some s') :
    s'.Inv lib svc userId := by
  obtain ⟨m, ug, pg, cnt, ur, ue, ps, pe, uo, po, res⟩ := s
  cases pg <;> simp [step] at hstep
  · subst hstep; simp_all [SvcState.Inv, MainPc.rank, WorkerPc.rank]
  · subst hstep; simp_all [SvcState.Inv, MainPc.rank, WorkerPc.rank]
    intro h; subst h; simp at hinv
  · subst hstep; simp_all [SvcState.Inv, MainPc.rank, WorkerPc.rank]
    intro h; subst h; simp at hinv
  · subst hstep; simp_all [SvcState.Inv, MainPc.rank, WorkerPc.rank]

theorem step_inv (lib : Libs) (svc : userPostService) (userId : Int) (a : Actor)
    (s s' : SvcState) (hinv : s.Inv lib svc userId)
    (hstep : step lib svc userId a s = some s') :
    s'.Inv lib svc userId := by
  cases a
  · exact step_main_inv lib svc userId s s' hinv hstep
  · exact step_user_inv lib svc userId s s' hinv hstep
  · exact step_posts_inv lib svc userId s s' hinv hstep

/-- Under the invariant every statement executed adds one to the total of the
three ranks. -/
theorem step_rank (lib : Libs) (svc : userPostService) (userId : Int) (a : Actor)
    (s s' : SvcState) (hinv : s.Inv lib svc userId)
    (hstep : step lib svc userId a s = some s') :
    s'.main.rank + s'.userG.rank + s'.postsG.rank
      = s.main.rank + s.userG.rank + s.postsG.rank + 1 := by
  obtain ⟨m, ug, pg, cnt, ur, ue, ps, pe, uo, po, res⟩ := s
  obtain ⟨h1, h2, -⟩ := hinv
  cases a
  · cases m <;> simp [step] at hstep
    · subst hstep; simp only [MainPc.rank]; omega
    · subst hstep
      have hu : ug = WorkerPc.idle := by simpa [MainPc.rank] using h1
      subst hu
      have e1 : WorkerPc.call.rank = 0 := rfl
      have e2 : WorkerPc.idle.rank = 0 := rfl
      simp only [MainPc.rank, e1, e2]
      omega
    · subst hstep; simp only [MainPc.rank]; omega
    · subst hstep
      have hp : pg = WorkerPc.idle := by simpa [MainPc.rank] using h2
      subst hp
      have e1 : WorkerPc.call.rank = 0 := rfl
      have e2 : WorkerPc.idle.rank = 0 := rfl
      simp only [MainPc.rank, e1, e2]
      omega
    · obtain ⟨_, hs⟩ := hstep
      subst hs; simp only [MainPc.rank]; omega
    · subst hstep; simp only [MainPc.rank]; omega
  · cases ug <;> simp [step] at hstep <;> subst hstep <;> simp only [WorkerPc.rank] <;> omega
  · cases pg <;> simp [step] at hstep <;> subst hstep <;> simp only [WorkerPc.rank]

theorem run_inv (lib : Libs) (svc : userPostService) (userId : Int) (sched : List Actor) :
    ∀ s s' : SvcState, s.Inv lib svc userId → run lib svc userId sched s = some s' →
      s'.Inv lib svc userId ∧
      s'.main.rank + s'.userG.rank + s'.postsG.rank
        = s.main.rank + s.userG.rank + s.postsG.rank + sched.length := by
  induction sched with
  | nil =>
    intro s s' hinv hrun
    simp [run] at hrun
    subst hrun
    exact ⟨hinv, by simp⟩
  | cons a rest ih =>
    intro s s' hinv hrun
    simp only [run] at hrun
    cases hst : step lib svc userId a s with
    | none => simp [hst] at hrun
    | some mid =>
      simp only [hst] at hrun
      have hmid := step_inv lib svc userId a s mid hinv hst
      have hrk := step_rank lib svc userId a s mid hinv hst
      obtain ⟨h1, h2⟩ := ih mid s' hmid hrun
      refine ⟨h1, ?_⟩
      rw [h2, hrk, List.length_cons]
      omega

theorem rank_le (s : SvcState) : s.main.rank + s.userG.rank + s.postsG.rank ≤ 14 := by
  obtain ⟨m, ug, pg, cnt, ur, ue, ps, pe, uo, po, res⟩ := s
  cases m <;> cases ug <;> cases pg <;> simp [MainPc.rank, WorkerPc.rank]

set_option maxRecDepth 4000 in
/-- Under the invariant a call that has not returned always has an actor that
can run: the only blocking statement is `waitGroup.Wait()`, and while the
counter is not zero a spawned goroutine is still running. -/
theorem inv_not_stuck (lib : Libs) (svc : userPostService) (userId : Int)
    (s : SvcState) (hinv : s.Inv lib svc userId) (hret : s.main ≠ MainPc.returned) :
    ∃ a : Actor, (step lib svc userId a s).isSome = true := by
  obtain ⟨m, ug, pg, cnt, ur, ue, ps, pe, uo, po, res⟩ := s
  cases m
  · exact ⟨Actor.main, by simp [step]⟩
  · exact ⟨Actor.main, by simp [step]⟩
  · exact ⟨Actor.main, by simp [step]⟩
  · exact ⟨Actor.main, by simp [step]⟩
  · by_cases hu : ug = WorkerPc.exited
    · by_cases hp : pg = WorkerPc.exited
      · refine ⟨Actor.main, ?_⟩
        subst hu; subst hp
        simp_all [SvcState.Inv, MainPc.rank, WorkerPc.rank, step]
      · refine ⟨Actor.postsFetch, ?_⟩
        cases pg <;> simp_all [SvcState.Inv, MainPc.rank, WorkerPc.rank, step]
    · refine ⟨Actor.userFetch, ?_⟩
      cases ug <;> simp_all [SvcState.Inv, MainPc.rank, WorkerPc.rank, step]
  · exact ⟨Actor.main, by simp [step]⟩
  · exact absurd rfl hret

theorem step_user_frame (lib : Libs) (svc : userPostService) (userId : Int)
    (s s' : SvcState) (hstep : step lib svc userId Actor.userFetch s = some s') :
    s'.posts = s.posts ∧ s'.postsErr = s.postsErr ∧ s'.postsOut = s.postsOut ∧
    s'.postsG = s.postsG ∧ s'.main = s.main ∧ s'.result = s.result := by
  obtain ⟨m, ug, pg, cnt, ur, ue, ps, pe, uo, po, res⟩ := s
  cases ug <;> simp [step] at hstep <;> subst hstep <;> simp

theorem step_posts_frame (lib : Libs) (svc : userPostService) (userId : Int)
    (s s' : SvcState) (hstep : step lib svc userId Actor.postsFetch s = some s') :
    s'.userResp = s.userResp ∧ s'.userErr = s.userErr ∧ s'.userOut = s.userOut ∧
    s'.userG = s.userG ∧ s'.main = s.main ∧ s'.result = s.result := by
  obtain ⟨m, ug, pg, cnt, ur, ue, ps, pe, uo, po, res⟩ := s
  cases pg <;> simp [step] at hstep <;> subst hstep <;> simp

/-- C14. In every state reached from the entry of the service by any
interleaving of the statements of the caller and of the two goroutines:
when the caller is at the merge or has returned, both goroutines have exited
(each after assigning its two variables and running `waitGroup.Done()`), the
counter is zero, and the four variables hold the outcomes of the two client
calls; the value returned is the one of `userPostService.getUserPostsByUserId`;
a call that has not returned can always take a statement, and it returns after
exactly 14 statements; a started goroutine can take its next statement whatever
the other one did, so neither fetch is cancelled or skipped; and a statement of
one goroutine leaves the variables of the other untouched. -/
theorem waitGroup_join (lib : Libs) (svc : userPostService) (userId : Int)
    (sched : List Actor) (s : SvcState)
    (hrun : run lib svc userId sched SvcState.init = some s) :
    ((s.main = MainPc.merge ∨ s.main = MainPc.returned) →
      s.userG = WorkerPc.exited ∧ s.postsG = WorkerPc.exited ∧ s.counter = 0 ∧
      (s.userResp, s.userErr) = svc.TypicodeClient.getUserById lib userId ∧
      (s.posts, s.postsErr) = svc.TypicodeClient.getPostsByUserId lib userId) ∧
    (s.main = MainPc.returned →
      s.result = some (userPostService.getUserPostsByUserId lib svc userId)) ∧
    (s.main ≠ MainPc.returned → ∃ a : Actor, (step lib svc userId a s).isSome = true) ∧
    (s.main = MainPc.returned ↔ sched.length = 14) ∧
    sched.length ≤ 14 ∧
    (s.userG ≠ WorkerPc.idle → s.userG ≠ WorkerPc.exited →
      (step lib svc userId Actor.userFetch s).isSome = true) ∧
    (s.postsG ≠ WorkerPc.idle → s.postsG ≠ WorkerPc.exited →
      (step lib svc userId Actor.postsFetch s).isSome = true) ∧
    (∀ s' : SvcState, step lib svc userId Actor.userFetch s = some s' →
      s'.posts = s.posts ∧ s'.postsErr = s.postsErr ∧ s'.postsG = s.postsG) ∧
    (∀ s' : SvcState, step lib svc userId Actor.postsFetch s = some s' →
      s'.userResp = s.userResp ∧ s'.userErr = s.userErr ∧ s'.userG = s.userG) := by
  obtain ⟨hinv, hlen⟩ := run_inv lib svc userId sched SvcState.init s
    (init_inv lib svc userId) hrun
  have hlen' : s.main.rank + s.userG.rank + s.postsG.rank = sched.length := by
    rw [hlen]
    simp [SvcState.init, MainPc.rank, WorkerPc.rank]
  have hbound := rank_le s
  have hjoin : (s.main = MainPc.merge ∨ s.main = MainPc.returned) →
      s.userG = WorkerPc.exited ∧ s.postsG = WorkerPc.exited ∧ s.counter = 0 ∧
      (s.userResp, s.userErr) = svc.TypicodeClient.getUserById lib userId ∧
      (s.posts, s.postsErr) = svc.TypicodeClient.getPostsByUserId lib userId := by
    intro hm
    obtain ⟨_, _, hc, h5, hu1, hu2, hu3, hp1, hp2, hp3, _⟩ := hinv
    have hr : 5 ≤ s.main.rank := by
      rcases hm with hm | hm <;> simp [hm, MainPc.rank]
    obtain ⟨hue, hpe⟩ := h5 hr
    have hur : s.userG.rank = 4 := by simp [hue, WorkerPc.rank]
    have hpr : s.postsG.rank = 4 := by simp [hpe, WorkerPc.rank]
    refine ⟨hue, hpe, ?_, ?_, ?_⟩
    · rw [hc]
      rcases hm with hm | hm <;> simp [hm, MainPc.rank, hue, hpe]
    · rw [← hu1 (by omega), hu2 (by omega), hu3 (by omega)]
    · rw [← hp1 (by omega), hp2 (by omega), hp3 (by omega)]
  refine ⟨hjoin, ?_, ?_, ?_, ?_, ?_, ?_, ?_, ?_⟩
  · intro hm
    obtain ⟨_, _, _, hu, hp⟩ := hjoin (Or.inr hm)
    have hres := hinv.2.2.2.2.2.2.2.2.2.2 hm
    rw [hres]
    simp only [userPostService.getUserPostsByUserId, ← hu, ← hp]
  · intro hm
    exact inv_not_stuck lib svc userId s hinv hm
  · constructor
    · intro hm
      obtain ⟨hue, hpe, _⟩ := hjoin (Or.inr hm)
      rw [← hlen', hm, hue, hpe]
      rfl
    · intro h14
      rw [← hlen'] at h14
      have hm : s.main.rank ≤ 6 := by cases s.main <;> simp [MainPc.rank]
      have hu : s.userG.rank ≤ 4 := by cases s.userG <;> simp [WorkerPc.rank]
      have hp : s.postsG.rank ≤ 4 := by cases s.postsG <;> simp [WorkerPc.rank]
      have h6 : s.main.rank = 6 := by omega
      revert h6
      cases s.main <;> simp [MainPc.rank]
  · omega
  · intro h1 h2
    revert h1 h2
    cases hg : s.userG <;> simp [step, hg]
  · intro h1 h2
    revert h1 h2
    cases hg : s.postsG <;> simp [step, hg]
  · intro s' hs
    obtain ⟨h1, h2, _, h4, _⟩ := step_user_frame lib svc userId s s' hs
    exact ⟨h1, h2, h4⟩
  · intro s' hs
    obtain ⟨h1, h2, _, h4, _⟩ := step_posts_frame lib svc userId s s' hs
    exact ⟨h1, h2, h4⟩

/-- Witness for C14: the user endpoint answers 500 and the user goroutine
finishes before the posts goroutine is even started; the posts fetch still runs
to its end before the merge, and the call returns the user error. -/
theorem waitGroup_join_witness :
    run testLibs (testService (.ok ⟨500, readerOf errMsg500⟩) (.ok ⟨200, readerOf postsJson⟩))
        userId userFirstSchedule SvcState.init = some userFailedFinalState ∧
    userFailedFinalState.main = MainPc.returned ∧
    userFailedFinalState.userG = WorkerPc.exited ∧
    userFailedFinalState.postsG = WorkerPc.exited ∧
    userFailedFinalState.counter = 0 ∧
    (userFailedFinalState.userResp, userFailedFinalState.userErr) =
      (testService (.ok ⟨500, readerOf errMsg500⟩)
        (.ok ⟨200, readerOf postsJson⟩)).TypicodeClient.getUserById testLibs userId ∧
    (userFailedFinalState.posts, userFailedFinalState.postsErr) =
      (testService (.ok ⟨500, readerOf errMsg500⟩)
        (.ok ⟨200, readerOf postsJson⟩)).TypicodeClient.getPostsByUserId testLibs userId :=
  ⟨by rfl, by rfl,
   (waitGroup_join testLibs
      (testService (.ok ⟨500, readerOf errMsg500⟩) (.ok ⟨200, readerOf postsJson⟩)) userId
      userFirstSchedule userFailedFinalState (by rfl)).1 (Or.inr (by rfl))⟩

/-! ## Controller -/

/-- C11. When the raw id parses as the integer `n` and the service returns the
pair `result, err` for `n`, the controller answers with one of the codes 200,
404, 500: code 200 exactly when `result` differs from `userPosts{}`, and then
the object sent is `result`; code 404 exactly when `result` is `userPosts{}`
and `err` is nil, and then the message is "Could not find userId=" followed by
the raw id; code 500 exactly when `result` is `userPosts{}` and `err` is not
nil, and then the message is the text of `err`. -/
theorem controller_status_mapping (Atoi : String → Except ErrorValue Int) (lib : Libs)
    (svc : userPostService) (raw : String) (n : Int) (result : userPosts) (err : error)
    (hparse : Atoi raw = .ok n)
    (hsvc : userPostService.getUserPostsByUserId lib svc n = (result, err)) :
    ((getUserPostsByUserId Atoi lib svc raw).code = 200 ∨
      (getUserPostsByUserId Atoi lib svc raw).code = 404 ∨
      (getUserPostsByUserId Atoi lib svc raw).code = 500) ∧
    ((getUserPostsByUserId Atoi lib svc raw).code = 200 ↔ result ≠ userPosts.zero) ∧
    (result ≠ userPosts.zero →
      getUserPostsByUserId Atoi lib svc raw = ⟨200, Payload.result result⟩) ∧
    ((getUserPostsByUserId Atoi lib svc raw).code = 404 ↔
      (result = userPosts.zero ∧ err = none)) ∧
    (result = userPosts.zero → err = none →
      getUserPostsByUserId Atoi lib svc raw
        = ⟨404, Payload.H ("Could not find userId=" ++ raw)⟩) ∧
    ((getUserPostsByUserId Atoi lib svc raw).code = 500 ↔
      (result = userPosts.zero ∧ err ≠ none)) ∧
    (∀ e : ErrorValue, result = userPosts.zero → err = some e →
      getUserPostsByUserId Atoi lib svc raw = ⟨500, Payload.H e.Error⟩) := by
  have hctl : getUserPostsByUserId Atoi lib svc raw
      = getUserPostsByUserId.respond raw result err := by
    simp [getUserPostsByUserId, hparse, hsvc]
  rw [hctl]
  by_cases hz : result = userPosts.zero
  · cases err with
    | none =>
      simp [getUserPostsByUserId.respond, reflect.DeepEqual, hz, http.StatusNotFound]
    | some e =>
      simp [getUserPostsByUserId.respond, reflect.DeepEqual, hz,
        http.StatusInternalServerError]
  · simp [getUserPostsByUserId.respond, reflect.DeepEqual, hz, http.StatusOK]

/-- Witness for C11: the three controller scenarios of `main_test.go`
(`TestGetUserPostsByUserIdSuccess`, `TestGetUserPostsByUserId404`,
`TestGetUserPostsByUserId500`). -/
theorem controller_status_mapping_witness :
    decimalAtoi "987654" = .ok 987654 ∧
    getUserPostsByUserId decimalAtoi testLibs
        (testService (.ok ⟨200, readerOf testUserJson⟩) (.ok ⟨200, readerOf postsJson⟩))
        "987654"
      = ⟨200, Payload.result testUserPosts⟩ ∧
    getUserPostsByUserId decimalAtoi testLibs
        (testService (.ok ⟨404, readerOf ""⟩) (.ok ⟨200, readerOf ""⟩)) "987654"
      = ⟨404, Payload.H "Could not find userId=987654"⟩ ∧
    getUserPostsByUserId decimalAtoi testLibs
        (testService (.ok ⟨500, readerOf errMsg500⟩) (.ok ⟨200, readerOf ""⟩)) "987654"
      = ⟨500, Payload.H
          "Unexpected server error occurred trying to fetch userId=987654 from Cool Vendor: world.execute (me);"⟩ :=
  ⟨by rfl,
   (controller_status_mapping decimalAtoi testLibs
      (testService (.ok ⟨200, readerOf testUserJson⟩) (.ok ⟨200, readerOf postsJson⟩))
      "987654" 987654 testUserPosts none (by rfl) (by rfl)).2.2.1 (by decide),
   (controller_status_mapping decimalAtoi testLibs
      (testService (.ok ⟨404, readerOf ""⟩) (.ok ⟨200, readerOf ""⟩))
      "987654" 987654 userPosts.zero none (by rfl) (by rfl)).2.2.2.2.1 (by rfl) (by rfl),
   (controller_status_mapping decimalAtoi testLibs
      (testService (.ok ⟨500, readerOf errMsg500⟩) (.ok ⟨200, readerOf ""⟩))
      "987654" 987654 userPosts.zero
      (some ⟨"Unexpected server error occurred trying to fetch userId=987654 from Cool Vendor: world.execute (me);"⟩)
      (by rfl) (by rfl)).2.2.2.2.2.2 _ (by rfl) (by rfl)⟩

/-- C12. When `strconv.Atoi` rejects the raw id, the controller answers code 400
with the message "Expected ID in integer format, but got '<raw id>' instead".
The answer is the same for every service, client, transport and library
behaviour: the service plays no role in it. -/
theorem controller_bad_id (Atoi : String → Except ErrorValue Int) (lib : Libs)
    (svc : userPostService) (raw : String) (cause : ErrorValue)
    (hparse : Atoi raw = .error cause) :
    getUserPostsByUserId Atoi lib svc raw =
      ⟨400, Payload.H ("Expected ID in integer format, but got '" ++ raw ++ "' instead")⟩ := by
  simp [getUserPostsByUserId, hparse, http.StatusBadRequest]

/-- Witness for C12: the scenario of `TestGetUserPostsByUserId400`, with a
service that would otherwise answer 200. -/
theorem controller_bad_id_witness :
    decimalAtoi "test-123"
      = .error ⟨"strconv.Atoi: parsing \"test-123\": invalid syntax"⟩ ∧
    getUserPostsByUserId decimalAtoi testLibs
        (testService (.ok ⟨200, readerOf testUserJson⟩) (.ok ⟨200, readerOf postsJson⟩))
        "test-123"
      = ⟨400, Payload.H "Expected ID in integer format, but got 'test-123' instead"⟩ :=
  ⟨by rfl,
   controller_bad_id decimalAtoi testLibs
     (testService (.ok ⟨200, readerOf testUserJson⟩) (.ok ⟨200, readerOf postsJson⟩))
     "test-123" ⟨"strconv.Atoi: parsing \"test-123\": invalid syntax"⟩ (by rfl)⟩

/-! ## Client: failures before a response -/

/-- C13. When the request is built and the injected client's `Do` fails with
cause `cause`, `getUserById` returns `user{}` with the error whose message is
"Unexpected communication or client policy error occurred trying to fetch
userId=", the decimal id, " from Cool Vendor: " and the text of `cause`, for
every JSON decoder: no status and no body take part in the outcome. -/
theorem getUserById_transport_failure (lib : Libs) (c : typicodeClient) (userId : Int)
    (req : Request) (cause : ErrorValue)
    (hreq : lib.NewRequest http.MethodGet (c.BaseUrl ++ "/users/" ++ fmtInt userId) = .ok req)
    (hdo : c.Client.Do req = .error cause) :
    c.getUserById lib userId =
      (user.zero,
        some ⟨"Unexpected communication or client policy error occurred trying to fetch userId="
          ++ fmtInt userId ++ " from Cool Vendor: " ++ cause.Error⟩) := by
  simp [typicodeClient.getUserById, hreq, hdo, errors.New]

/-- Witness for C13: the scenario of
`TestTypicodeClientGetUserByIdResponseExecutionErr`. -/
theorem getUserById_transport_failure_witness :
    testLibs.NewRequest http.MethodGet (mockBaseURL ++ "/users/" ++ fmtInt userId)
      = .ok ⟨"GET", "https://cool-vendor.com/users/987654", ""⟩ ∧
    (mockHTTPClient (.error errFoo) (.error errFoo)).Do
        ⟨"GET", "https://cool-vendor.com/users/987654", ""⟩ = .error errFoo ∧
    typicodeClient.getUserById testLibs
        { Client := mockHTTPClient (.error errFoo) (.error errFoo), BaseUrl := mockBaseURL }
        userId
      = (user.zero,
          some ⟨"Unexpected communication or client policy error occurred trying to fetch userId=987654 from Cool Vendor: ooga-booga"⟩) :=
  ⟨by rfl, by rfl,
   getUserById_transport_failure testLibs
     { Client := mockHTTPClient (.error errFoo) (.error errFoo), BaseUrl := mockBaseURL }
     userId ⟨"GET", "https://cool-vendor.com/users/987654", ""⟩ errFoo (by rfl) (by rfl)⟩

/-! ## Client: an error is never paired with a profile -/

/-- The outcome of `getUserById` is either `user{}` (with or without an error)
or a decoded user with a nil error on the 200 path. -/
theorem getUserById_cases (lib : Libs) (c : typicodeClient) (userId : Int) :
    (c.getUserById lib userId).1 = user.zero ∨
    ((c.getUserById lib userId).2 = none ∧
      ∃ (req : Request) (body : Body),
        lib.NewRequest http.MethodGet (c.BaseUrl ++ "/users/" ++ fmtInt userId) = .ok req ∧
        c.Client.Do req = .ok ⟨http.StatusOK, body⟩ ∧
        lib.decodeUser body = .ok (c.getUserById lib userId).1) := by
  cases hreq : lib.NewRequest http.MethodGet (c.BaseUrl ++ "/users/" ++ fmtInt userId) with
  | error e => simp [typicodeClient.getUserById, hreq]
  | ok req =>
    cases hdo : c.Client.Do req with
    | error e => simp [typicodeClient.getUserById, hreq, hdo]
    | ok resp =>
      obtain ⟨st, body⟩ := resp
      by_cases h200 : st = http.StatusOK
      · subst h200
        cases hdec : lib.decodeUser body with
        | error e => simp [typicodeClient.getUserById, hreq, hdo, hdec]
        | ok u =>
          right
          have hval : c.getUserById lib userId = (u, none) :=
            getUserById_decoded lib c userId req body u hreq hdo hdec
          rw [hval]
          exact ⟨rfl, req, body, rfl, hdo, hdec⟩
      · by_cases h404 : st = http.StatusNotFound
        · subst h404
          simp [typicodeClient.getUserById, hreq, hdo, http.StatusOK, http.StatusNotFound]
        · cases hr : body.readErr <;>
            simp [typicodeClient.getUserById, hreq, hdo, h200, h404, ioutil.ReadAll, hr]

/-- C15. For every library behaviour, client (base URL and transport) and id:
if `getUserById` returns a non-nil error then the user it returns is `user{}`;
a user other than `user{}` is returned only with a nil error, when the request
was built, the transport answered 200 and the body decoded as that user. Hence
the pair "profile found, user error" never reaches the merge of the service,
and whenever the user fetch produced an error the service returns `userPosts{}`
with exactly that error. -/
theorem getUserById_error_implies_zero (lib : Libs) (c : typicodeClient) (userId : Int) :
    ((c.getUserById lib userId).2 ≠ none → (c.getUserById lib userId).1 = user.zero) ∧
    ((c.getUserById lib userId).1 ≠ user.zero →
      (c.getUserById lib userId).2 = none ∧
      ∃ (req : Request) (body : Body),
        lib.NewRequest http.MethodGet (c.BaseUrl ++ "/users/" ++ fmtInt userId) = .ok req ∧
        c.Client.Do req = .ok ⟨http.StatusOK, body⟩ ∧
        lib.decodeUser body = .ok (c.getUserById lib userId).1) ∧
    ¬ ((c.getUserById lib userId).1 ≠ user.zero ∧ (c.getUserById lib userId).2 ≠ none) ∧
    ((c.getUserById lib userId).2 ≠ none →
      userPostService.getUserPostsByUserId lib { TypicodeClient := c } userId
        = (userPosts.zero, (c.getUserById lib userId).2)) := by
  have hcases := getUserById_cases lib c userId
  have h1 : (c.getUserById lib userId).2 ≠ none → (c.getUserById lib userId).1 = user.zero := by
    intro herr
    rcases hcases with hz | ⟨hnil, _⟩
    · exact hz
    · exact absurd hnil herr
  refine ⟨h1, ?_, ?_, ?_⟩
  · intro hne
    rcases hcases with hz | hok
    · exact absurd hz hne
    · exact hok
  · rintro ⟨hne, herr⟩
    exact hne (h1 herr)
  · intro herr
    have hz := h1 herr
    cases hE : (c.getUserById lib userId).2 with
    | none => exact absurd hE herr
    | some e =>
      have hpair : c.getUserById lib userId = (user.zero, some e) := by
        rw [← hz, ← hE]
      have := service_eq_merge lib { TypicodeClient := c } userId user.zero (some e)
        (c.getPostsByUserId lib userId).1 (c.getPostsByUserId lib userId).2 hpair rfl
      rw [this]
      exact merge_absent_userErr e _ _

/-- Witness for C15: a transport failure (error, hence `user{}`), and a 200
answer decoding as `testUser` (profile, hence nil error). -/
theorem getUserById_error_implies_zero_witness :
    (typicodeClient.getUserById testLibs
        { Client := mockHTTPClient (.error errFoo) (.error errFoo), BaseUrl := mockBaseURL }
        userId).2 ≠ none ∧
    (typicodeClient.getUserById testLibs
        { Client := mockHTTPClient (.error errFoo) (.error errFoo), BaseUrl := mockBaseURL }
        userId).1 = user.zero ∧
    (typicodeClient.getUserById testLibs
        { Client := mockHTTPClient (.ok ⟨200, readerOf testUserJson⟩) (.error errFoo),
          BaseUrl := mockBaseURL }
        userId).1 ≠ user.zero ∧
    (typicodeClient.getUserById testLibs
        { Client := mockHTTPClient (.ok ⟨200, readerOf testUserJson⟩) (.error errFoo),
          BaseUrl := mockBaseURL }
        userId).2 = none :=
  ⟨by decide,
   (getUserById_error_implies_zero testLibs
      { Client := mockHTTPClient (.error errFoo) (.error errFoo), BaseUrl := mockBaseURL }
      userId).1 (by decide),
   by decide,
   ((getUserById_error_implies_zero testLibs
      { Client := mockHTTPClient (.ok ⟨200, readerOf testUserJson⟩) (.error errFoo),
        BaseUrl := mockBaseURL }
      userId).2.1 (by decide)).1⟩

end BackToThe2000s
